import Mathlib

/-!
# Web-Based Backgammon Game Analyzer — verification of the deterministic core

Shallow embedding of the two deterministic components of the repository:

* the board-region partitioner and the placeholder cube-value / dice-pip
  computations of `CheckerDetector` (`detector.js`), and
* the game-state log serializer of the PHP endpoint `save_move.php`.

Modelling conventions:

* JavaScript / PHP numbers are modelled as rationals (`ℚ`); PHP `round`
  (default mode, halves away from zero) is `phpRound`.
* PHP `isset` on an optional field is modelled by an `Option` field (`isset`
  is false both for a missing key and for a JSON `null` value).
* The server-side call `date('Y-m-d H:i:s')` is an input of the handler
  (`serverTime`); the client-submitted `timestamp` field is a separate input
  that the endpoint only validates for presence.
* `Math.random()` is an explicit input `rand ∈ [0, 1)`; `HoughCircles`
  output is an explicit input list of circles.
* Log entries are modelled exactly as the PHP `$logEntries` strings,
  trailing `"\n"` included; the file append writes their concatenation.
-/

namespace Backgammon

/-- PHP `round($q)` in its default mode: nearest integer, halves rounded
away from zero (`round(2.5) = 3`, `round(-2.5) = -3`). -/
def phpRound (q : ℚ) : ℤ :=
  if 0 ≤ q then ⌊q + 1/2⌋ else -⌊-q + 1/2⌋

/-- Modelled from the spec: "round-half-up" as the spec's words state it,
`⌊q + 1/2⌋`, for comparison with the source's `phpRound`. -/
def roundHalfUp (q : ℚ) : ℤ := ⌊q + 1/2⌋

/-! ## Board regions (`CheckerDetector.detectBoardRegions`) -/

/-- Which edge of the board a region point lies on. -/
inductive BoardSide where
  | top
  | bottom
deriving DecidableEq, Repr

/-- One of the 24 board points returned by `detectBoardRegions`. -/
structure Region where
  point : ℕ
  x : ℚ
  y : ℚ
  side : BoardSide
deriving DecidableEq, Repr

/-- `CheckerDetector.detectBoardRegions`: partitions a `boardWidth ×
boardHeight` canvas into 24 points, 12 on the top edge at `y = 0.1·H` and
12 on the bottom edge at `y = 0.9·H`, at the centers of 12 equal-width
columns (`regionWidth = W / 12`). -/
def detectBoardRegions (boardWidth boardHeight : ℚ) : List Region :=
  let regionWidth := boardWidth / 12
  ((List.range 12).map fun i =>
    { point := i + 1
      x := regionWidth * i + regionWidth / 2
      y := boardHeight * (1/10)
      side := BoardSide.top }) ++
  ((List.range 12).map fun i =>
    { point := i + 13
      x := regionWidth * i + regionWidth / 2
      y := boardHeight * (9/10)
      side := BoardSide.bottom })

/-! ## Placeholder detectors (`detectCubeValue`, `detectDicePips`) -/

/-- `CheckerDetector.detectCubeValue(x, y)`: placeholder, always `1`. -/
def detectCubeValue (x y : ℚ) : ℤ := 1

/-- `CheckerDetector.detectDicePips(centerX, centerY, diceRadius)`:
placeholder `Math.floor(Math.random() * 6) + 1`, with `Math.random()`
made the explicit input `rand`. -/
def detectDicePips (centerX centerY diceRadius : ℚ) (rand : ℚ) : ℤ :=
  ⌊rand * 6⌋ + 1

/-! ## Dice detection (`CheckerDetector.detectDice`) -/

/-- A raw circle `(x, y, radius)` as produced by `cv.HoughCircles`. -/
structure Circle where
  x : ℚ
  y : ℚ
  radius : ℚ
deriving DecidableEq, Repr

/-- A detected die: position, radius and (placeholder) pip count. -/
structure DetectedDie where
  x : ℚ
  y : ℚ
  radius : ℚ
  pips : ℤ
deriving DecidableEq, Repr

/-- The filtering loop of `detectDice`: keeps each circle with
`x > 0 && y > 0 && x < width && y < height && radius < 25`, attaching a
pip count from `detectDicePips`; one element of the random stream `rands`
is consumed per detected die. -/
def collectDice (width height : ℚ) : List Circle → List ℚ → List DetectedDie
  | [], _ => []
  | c :: cs, rands =>
    if 0 < c.x ∧ 0 < c.y ∧ c.x < width ∧ c.y < height ∧ c.radius < 25 then
      { x := c.x, y := c.y, radius := c.radius,
        pips := detectDicePips c.x c.y c.radius (rands.headD 0) } ::
        collectDice width height cs (rands.tail)
    else
      collectDice width height cs rands

/-- `CheckerDetector.detectDice` result assignment:
`{ red: dice[0] || null, white: dice[1] || null }` — the first detected
die becomes `red`, the second becomes `white`, purely by order. -/
def detectDice (width height : ℚ) (circles : List Circle) (rands : List ℚ) :
    Option DetectedDie × Option DetectedDie :=
  let dice := collectDice width height circles rands
  (dice.get? 0, dice.get? 1)

/-! ## Game-state snapshot (the JSON accepted by `save_move.php`) -/

/-- A checker entry of `gameState.checkers`; the PHP reads `x`/`y` with an
`isset` guard and substitutes `0` when absent. -/
structure Checker where
  x : Option ℚ
  y : Option ℚ
deriving DecidableEq, Repr

/-- A die entry of `gameState.dice.red` / `gameState.dice.white`; `pips`
is read with the null-coalescing `?? '?'`. -/
structure Die where
  x : ℚ
  y : ℚ
  pips : Option ℤ
deriving DecidableEq, Repr

/-- The `gameState.dice` object; `red` / `white` are `isset`-guarded, and a
JSON `null` value behaves like an absent key. -/
structure DicePair where
  red : Option Die
  white : Option Die
deriving DecidableEq, Repr

/-- The `gameState.cube` object; the section is emitted only when `cube.x`
is set, and `value` is read with `?? '?'`. -/
structure CubeObj where
  x : Option ℚ
  y : ℚ
  value : Option ℤ
deriving DecidableEq, Repr

/-- The `gameState` object of a submission. `checkers = none` models a
missing `checkers` key (or a non-array value, which the
`is_array` guard likewise skips); similarly for `dice` and `cube`. -/
structure GameState where
  checkers : Option (List Checker)
  dice : Option DicePair
  cube : Option CubeObj
deriving DecidableEq, Repr

/-- The decoded JSON body of a submission: `none` for a field models a
missing key or JSON `null` (both fail `isset`). A body that is not valid
JSON, or decodes to a falsy or non-array value, is modelled as `none` at
the `Option ParsedBody` layer of `handleSaveMove`. -/
structure ParsedBody where
  gameState : Option GameState
  timestamp : Option String
deriving DecidableEq, Repr

/-! ## Log-line serialization (`save_move.php`) -/

/-- Rendering of an optional integer under PHP string interpolation after
`?? '?'`: the decimal digits when present, `"?"` otherwise. -/
def optStr : Option ℤ → String
  | some n => toString n
  | none => "?"

/-- The `"[{$timestamp}] "` marker put in front of every section header. -/
def tsMark (ts : String) : String := "[" ++ ts ++ "] "

/-- `"  - Checker at position (x:{$x}, y:{$y})\n"`, with
`$x = isset($checker['x']) ? round($checker['x']) : 0` and likewise `$y`. -/
def checkerLine (c : Checker) : String :=
  let x : ℤ := match c.x with | some v => phpRound v | none => 0
  let y : ℤ := match c.y with | some v => phpRound v | none => 0
  "  - Checker at position (x:" ++ toString x ++ ", y:" ++ toString y ++ ")\n"

/-- `"  - {$color} Die: {$pips} pips at (x:{$x}, y:{$y})\n"`. -/
def dieLine (color : String) (d : Die) : String :=
  "  - " ++ color ++ " Die: " ++ optStr d.pips ++ " pips at (x:" ++
    toString (phpRound d.x) ++ ", y:" ++ toString (phpRound d.y) ++ ")\n"

/-- `"  - Cube at (x:{$x}, y:{$y}), value: {$value}\n"`. -/
def cubeLine (x y : ℚ) (value : Option ℤ) : String :=
  "  - Cube at (x:" ++ toString (phpRound x) ++ ", y:" ++
    toString (phpRound y) ++ "), value: " ++ optStr value ++ "\n"

/-- The checkers block: emitted only under
`isset($gameState['checkers']) && is_array($gameState['checkers'])`. -/
def checkersSection (ts : String) (gs : GameState) : List String :=
  match gs.checkers with
  | some cs =>
      (tsMark ts ++ "=== CHECKERS === (" ++ toString cs.length ++ " found)\n")
        :: cs.map checkerLine
  | none => []

/-- The dice block: emitted only under `isset($gameState['dice'])`, with
one detail line per `isset` die, red first. -/
def diceSection (ts : String) (gs : GameState) : List String :=
  match gs.dice with
  | some d =>
      (tsMark ts ++ "=== DICE ===\n") ::
        ((match d.red with | some r => [dieLine "Red" r] | none => []) ++
         (match d.white with | some w => [dieLine "White" w] | none => []))
  | none => []

/-- The doubling-cube block: emitted only under
`isset($gameState['cube']) && isset($gameState['cube']['x'])`. -/
def cubeSection (ts : String) (gs : GameState) : List String :=
  match gs.cube with
  | some cb =>
      match cb.x with
      | some cx => [tsMark ts ++ "=== DOUBLING CUBE ===\n",
                    cubeLine cx cb.y cb.value]
      | none => []
  | none => []

/-- The `$logEntries` array built by `save_move.php` for one submission:
checkers block, dice block, cube block (each appended in program order),
then the `"\n"` readability entry. `ts` is the server-side
`date('Y-m-d H:i:s')` string. -/
def serializeGameState (gs : GameState) (ts : String) : List String :=
  checkersSection ts gs ++ diceSection ts gs ++ cubeSection ts gs ++ ["\n"]

/-- Outcome of one request to `save_move.php`: HTTP status, the `logged`
count of the success response (absent on error), and the entries appended
to `moves.txt` (empty when nothing was written). -/
structure HandleResult where
  status : ℕ
  logged : Option ℕ
  appended : List String
deriving DecidableEq, Repr

/-- The POST handler of `save_move.php`. `body` is the decoded JSON
(`none` when `json_decode` yields a falsy value), `serverTime` the value
of `date('Y-m-d H:i:s')`, and `writeOk` whether `file_put_contents`
succeeds (the `LOCK_EX` append is all-or-nothing). Validation failures
exit with HTTP 400 before anything is written; a failed or skipped write
surfaces as HTTP 500 with nothing appended. -/
def handleSaveMove (body : Option ParsedBody) (serverTime : String)
    (writeOk : Bool) : HandleResult :=
  match body with
  | none => ⟨400, none, []⟩
  | some pb =>
    match pb.gameState, pb.timestamp with
    | some gs, some _ =>
        let entries := serializeGameState gs serverTime
        if entries.isEmpty then ⟨500, none, []⟩
        else if writeOk then ⟨200, some entries.length, entries⟩
        else ⟨500, none, []⟩
    | _, _ => ⟨400, none, []⟩

/-! ## Helper lemmas -/

/-- The region at (0-based) list position `i`, with an out-of-range default. -/
def regionAt (W H : ℚ) (i : ℕ) : Region :=
  (detectBoardRegions W H).getD i ⟨0, 0, 0, BoardSide.top⟩

lemma regionAt_of_lt_12 (W H : ℚ) (i : ℕ) (h : i < 12) :
    regionAt W H i =
      { point := i + 1, x := (W/12) * i + W/24, y := H * (1/10),
        side := BoardSide.top } := by
  interval_cases i <;>
    simp [regionAt, detectBoardRegions, List.range_succ, List.getD] <;> ring

lemma regionAt_of_ge_12 (W H : ℚ) (i : ℕ) (h1 : 12 ≤ i) (h2 : i < 24) :
    regionAt W H i =
      { point := i + 1, x := (W/12) * (i - 12 : ℕ) + W/24, y := H * (9/10),
        side := BoardSide.bottom } := by
  interval_cases i <;>
    simp [regionAt, detectBoardRegions, List.range_succ, List.getD] <;> ring

/-- A two-space-indented detail line never starts with the `"[<ts>] "`
timestamp marker: its first character is a space, not `'['`. -/
lemma indent_ne_tsMark (ts a b : String) : "  " ++ a ≠ tsMark ts ++ b := by
  intro h
  have h2 := congrArg String.data h
  simp only [tsMark, String.data_append] at h2
  simp at h2

/-! ## C1 — board-region partition -/

/-- C1: for positive `W`, `H`, `detectBoardRegions` returns exactly 24
points; list positions `0..11` (points 1..12) are on the top edge at
`y = 0.1·H` and positions `12..23` (points 13..24) on the bottom edge at
`y = 0.9·H`; in each row the x-coordinate of column `c` (1-based) is
`(W/12)·(c-1) + W/24`, consecutive x-coordinates differ by exactly `W/12`,
and point `i` and point `i+12` share the same x. -/
theorem detectBoardRegions_partition (W H : ℚ) (hW : 0 < W) (hH : 0 < H) :
    (detectBoardRegions W H).length = 24 ∧
    (∀ i : ℕ, i < 12 →
      (regionAt W H i).point = i + 1 ∧
      (regionAt W H i).side = BoardSide.top ∧
      (regionAt W H i).y = (1/10 : ℚ) * H ∧
      (regionAt W H i).x = (W/12) * (((regionAt W H i).point : ℚ) - 1) + W/24) ∧
    (∀ i : ℕ, 12 ≤ i → i < 24 →
      (regionAt W H i).point = i + 1 ∧
      (regionAt W H i).side = BoardSide.bottom ∧
      (regionAt W H i).y = (9/10 : ℚ) * H ∧
      (regionAt W H i).x =
        (W/12) * ((((regionAt W H i).point : ℚ) - 12) - 1) + W/24) ∧
    (∀ i : ℕ, i + 1 < 12 →
      (regionAt W H (i+1)).x - (regionAt W H i).x = W / 12 ∧
      (regionAt W H (i+13)).x - (regionAt W H (i+12)).x = W / 12) ∧
    (∀ i : ℕ, i < 12 → (regionAt W H i).x = (regionAt W H (i+12)).x) := by
  refine ⟨by simp [detectBoardRegions], ?_, ?_, ?_, ?_⟩
  · intro i h
    rw [regionAt_of_lt_12 W H i h]
    refine ⟨rfl, rfl, by ring, ?_⟩
    push_cast
    ring
  · intro i h1 h2
    rw [regionAt_of_ge_12 W H i h1 h2]
    refine ⟨rfl, rfl, by ring, ?_⟩
    dsimp only
    rw [Nat.cast_sub h1]
    push_cast
    ring
  · intro i h
    rw [regionAt_of_lt_12 W H i (by omega), regionAt_of_lt_12 W H (i+1) (by omega),
      regionAt_of_ge_12 W H (i+12) (by omega) (by omega),
      regionAt_of_ge_12 W H (i+13) (by omega) (by omega)]
    dsimp only
    rw [show i + 13 - 12 = i + 1 from by omega, show i + 12 - 12 = i from by omega]
    constructor <;> (push_cast; ring)
  · intro i h
    rw [regionAt_of_lt_12 W H i h,
      regionAt_of_ge_12 W H (i+12) (by omega) (by omega)]
    dsimp only
    rw [show i + 12 - 12 = i from by omega]

/-- Witness for C1 at `W = 12`, `H = 10`. -/
theorem detectBoardRegions_partition_witness :
    (detectBoardRegions 12 10).length = 24 :=
  (detectBoardRegions_partition 12 10 (by norm_num) (by norm_num)).1

lemma checkerLine_indent (c : Checker) : ∃ r, checkerLine c = "  " ++ r := by
  rcases c with ⟨xo, yo⟩
  cases xo <;> cases yo
  · exact ⟨"- Checker at position (x:" ++ toString (0:ℤ) ++ ", y:" ++
      toString (0:ℤ) ++ ")\n", rfl⟩
  · rename_i w
    exact ⟨"- Checker at position (x:" ++ toString (0:ℤ) ++ ", y:" ++
      toString (phpRound w) ++ ")\n", rfl⟩
  · rename_i v
    exact ⟨"- Checker at position (x:" ++ toString (phpRound v) ++ ", y:" ++
      toString (0:ℤ) ++ ")\n", rfl⟩
  · rename_i v w
    exact ⟨"- Checker at position (x:" ++ toString (phpRound v) ++ ", y:" ++
      toString (phpRound w) ++ ")\n", rfl⟩

lemma dieLine_indent (color : String) (d : Die) :
    ∃ r, dieLine color d = "  " ++ r :=
  ⟨"- " ++ color ++ " Die: " ++ optStr d.pips ++ " pips at (x:" ++
    toString (phpRound d.x) ++ ", y:" ++ toString (phpRound d.y) ++ ")\n", rfl⟩

lemma cubeLine_indent (x y : ℚ) (value : Option ℤ) :
    ∃ r, cubeLine x y value = "  " ++ r :=
  ⟨"- Cube at (x:" ++ toString (phpRound x) ++ ", y:" ++
    toString (phpRound y) ++ "), value: " ++ optStr value ++ "\n", rfl⟩

/-! ## C2 — section order and line formatting -/

/-- C2 counterexample: the submission
`{gameState: {}, timestamp: "2025-10-26T15:22:41.000Z"}` is valid (it has
both required keys), yet its serialization contains no checkers section at
all — only the trailing blank entry — so the serializer does not emit a
checkers section for every valid submission. -/
theorem serialize_sections_cex :
    handleSaveMove
        (some ⟨some ⟨none, none, none⟩, some "2025-10-26T15:22:41.000Z"⟩)
        "2025-10-26 15:22:41" true =
      ⟨200, some 1, ["\n"]⟩ := by
  rfl

/-- C2 (amended): the serializer emits, in this order, a checkers section
(only when the checkers field is present as a list), then a dice section
(only when the dice field is present), then a doubling-cube section (only
when the cube field is present with a defined x), then a trailing blank
entry; each section's header starts with the `"[<timestamp>] "` marker
while the detail lines of every section start with two spaces and never
with the timestamp marker. -/
theorem serialize_sections (gs : GameState) (ts : String) :
    serializeGameState gs ts =
      checkersSection ts gs ++ diceSection ts gs ++ cubeSection ts gs ++ ["\n"] ∧
    (checkersSection ts gs ≠ [] ↔ gs.checkers.isSome) ∧
    (diceSection ts gs ≠ [] ↔ gs.dice.isSome) ∧
    (cubeSection ts gs ≠ [] ↔ ∃ cb cx, gs.cube = some cb ∧ cb.x = some cx) ∧
    (∀ sec ∈ [checkersSection ts gs, diceSection ts gs, cubeSection ts gs],
      (∀ hd ∈ sec.head?, ∃ r, hd = tsMark ts ++ r) ∧
      (∀ l ∈ sec.tail, (∃ r, l = "  " ++ r) ∧ ∀ r, l ≠ tsMark ts ++ r)) ∧
    (serializeGameState gs ts).getLast? = some "\n" := by
  obtain ⟨ck, di, cb⟩ := gs
  refine ⟨rfl, ?_, ?_, ?_, ?_, ?_⟩
  · cases ck <;> simp [checkersSection]
  · cases di <;> simp [diceSection]
  · rcases cb with _ | ⟨xo, yy, vv⟩
    · simp [cubeSection]
    · cases xo <;> simp [cubeSection]
  · intro sec hsec
    simp only [List.mem_cons, List.not_mem_nil, or_false] at hsec
    rcases hsec with rfl | rfl | rfl
    · cases ck with
      | none => simp [checkersSection]
      | some cs =>
        constructor
        · intro hd hhd
          simp only [checkersSection, List.head?_cons, Option.mem_def,
            Option.some.injEq] at hhd
          subst hhd
          exact ⟨"=== CHECKERS === (" ++ toString cs.length ++ " found)\n",
            by simp only [String.append_assoc]⟩
        · intro l hl
          simp only [checkersSection, List.tail_cons, List.mem_map] at hl
          obtain ⟨c, hc, rfl⟩ := hl
          obtain ⟨r, hr⟩ := checkerLine_indent c
          refine ⟨⟨r, hr⟩, ?_⟩
          intro r2 hcontra
          rw [hr] at hcontra
          exact indent_ne_tsMark ts r r2 hcontra
    · cases di with
      | none => simp [diceSection]
      | some d =>
        constructor
        · intro hd hhd
          simp only [diceSection, List.head?_cons, Option.mem_def,
            Option.some.injEq] at hhd
          subst hhd
          exact ⟨"=== DICE ===\n", rfl⟩
        · intro l hl
          simp only [diceSection, List.tail_cons, List.mem_append] at hl
          obtain ⟨ro, wo⟩ := d
          have hline : (∃ dd col, l = dieLine col dd) := by
            rcases hl with hl | hl
            · cases ro <;> simp at hl
              exact ⟨_, _, hl⟩
            · cases wo <;> simp at hl
              exact ⟨_, _, hl⟩
          obtain ⟨dd, col, rfl⟩ := hline
          obtain ⟨r, hr⟩ := dieLine_indent col dd
          refine ⟨⟨r, hr⟩, ?_⟩
          intro r2 hcontra
          rw [hr] at hcontra
          exact indent_ne_tsMark ts r r2 hcontra
    · rcases cb with _ | ⟨xo, yy, vv⟩
      · simp [cubeSection]
      · cases xo with
        | none => simp [cubeSection]
        | some cx =>
          constructor
          · intro hd hhd
            simp only [cubeSection, List.head?_cons, Option.mem_def,
              Option.some.injEq] at hhd
            subst hhd
            exact ⟨"=== DOUBLING CUBE ===\n", rfl⟩
          · intro l hl
            simp only [cubeSection, List.tail_cons, List.mem_singleton] at hl
            subst hl
            obtain ⟨r, hr⟩ := cubeLine_indent cx yy vv
            refine ⟨⟨r, hr⟩, ?_⟩
            intro r2 hcontra
            rw [hr] at hcontra
            exact indent_ne_tsMark ts r r2 hcontra
  · simp [serializeGameState, List.append_assoc, List.getLast?_concat]

/-- Witness for C2's amended statement at a snapshot with all sections. -/
theorem serialize_sections_witness :
    serializeGameState ⟨some [], some ⟨none, none⟩, none⟩ "T" =
      checkersSection "T" ⟨some [], some ⟨none, none⟩, none⟩ ++
        diceSection "T" ⟨some [], some ⟨none, none⟩, none⟩ ++
        cubeSection "T" ⟨some [], some ⟨none, none⟩, none⟩ ++ ["\n"] :=
  (serialize_sections ⟨some [], some ⟨none, none⟩, none⟩ "T").1

/-! ## C3 — empty snapshot serialization -/

/-- C3: serializing a snapshot with an empty checkers list, no dice and no
cube yields exactly two entries: the checkers header ending in
`"(0 found)"` and the trailing blank line. -/
theorem serialize_empty_snapshot (ts : String) :
    serializeGameState ⟨some [], none, none⟩ ts =
      [tsMark ts ++ "=== CHECKERS === (0 found)\n", "\n"] := by
  simp only [serializeGameState, checkersSection, diceSection, cubeSection,
    List.map_nil, List.length_nil, String.append_assoc, List.nil_append,
    List.append_nil, List.cons_append, List.singleton_append]
  rfl

/-- Witness for C3 at a concrete timestamp. -/
theorem serialize_empty_snapshot_witness :
    serializeGameState ⟨some [], none, none⟩ "2025-10-26 15:22:41" =
      ["[2025-10-26 15:22:41] === CHECKERS === (0 found)\n", "\n"] := by
  rw [serialize_empty_snapshot]
  rfl

/-! ## C4 — coordinate rounding -/

/-- C4 counterexample: at `x = -0.5` the code's PHP `round` (halves away
from zero) gives `-1`, while round-half-up gives `0`; the serialized line
for a checker at `(-0.5, 0)` therefore is not its coordinates rounded half
up. -/
theorem checkerLine_half_up_cex :
    phpRound (-(1/2)) = -1 ∧ roundHalfUp (-(1/2)) = 0 ∧
    checkerLine ⟨some (-(1/2)), some 0⟩ =
      "  - Checker at position (x:-1, y:0)\n" ∧
    checkerLine ⟨some (-(1/2)), some 0⟩ ≠
      "  - Checker at position (x:" ++ toString (roundHalfUp (-(1/2))) ++
        ", y:" ++ toString (roundHalfUp (0:ℚ)) ++ ")\n" := by
  have h1 : phpRound (-(1/2)) = -1 := by norm_num [phpRound]
  have h0 : phpRound (0:ℚ) = 0 := by norm_num [phpRound]
  have h2 : roundHalfUp (-(1/2) : ℚ) = 0 := by norm_num [roundHalfUp]
  have h3 : roundHalfUp (0 : ℚ) = 0 := by norm_num [roundHalfUp]
  refine ⟨h1, h2, ?_, ?_⟩
  · simp only [checkerLine, h1, h0]
    rfl
  · simp only [checkerLine, h1, h0, h2, h3]
    decide

/-- C4 (amended): serialized checker coordinates are `x` and `y` rounded
to the nearest integer with halves rounded away from zero, which agrees
with round-half-up on all nonnegative values; in particular a checker at
`(120.4, 339.6)` serializes as
`"  - Checker at position (x:120, y:340)"`. -/
theorem checkerLine_round (c : Checker) (cx cy : ℚ)
    (hx : c.x = some cx) (hy : c.y = some cy) :
    checkerLine c = "  - Checker at position (x:" ++ toString (phpRound cx) ++
      ", y:" ++ toString (phpRound cy) ++ ")\n" ∧
    (0 ≤ cx → phpRound cx = roundHalfUp cx) ∧
    (0 ≤ cy → phpRound cy = roundHalfUp cy) ∧
    checkerLine ⟨some (602/5), some (1698/5)⟩ =
      "  - Checker at position (x:120, y:340)\n" := by
  refine ⟨by simp [checkerLine, hx, hy], ?_, ?_, ?_⟩
  · intro h
    simp [phpRound, roundHalfUp, h]
  · intro h
    simp [phpRound, roundHalfUp, h]
  · have ha : phpRound (602/5) = 120 := by norm_num [phpRound]
    have hb : phpRound (1698/5) = 340 := by norm_num [phpRound]
    simp only [checkerLine, ha, hb]
    rfl

/-- Witness for C4's amended statement at the spec's example checker. -/
theorem checkerLine_round_witness :
    checkerLine ⟨some (602/5), some (1698/5)⟩ =
      "  - Checker at position (x:120, y:340)\n" :=
  (checkerLine_round ⟨some (602/5), some (1698/5)⟩ (602/5) (1698/5)
    rfl rfl).2.2.2

/-! ## C5 — determinism and the two timestamps -/

/-- C5 counterexample: two calls with the same `GameStateSnapshot` and the
same submitted timestamp string, handled at different server clock
readings (`date('Y-m-d H:i:s')`), append different bytes — the output is
not a function of the snapshot and the submitted timestamp. -/
theorem serialize_server_clock_cex :
    (handleSaveMove (some ⟨some ⟨some [], none, none⟩,
        some "2025-10-26T15:22:41.000Z"⟩) "2025-10-26 15:22:41" true).appended ≠
      (handleSaveMove (some ⟨some ⟨some [], none, none⟩,
        some "2025-10-26T15:22:41.000Z"⟩) "2025-10-26 15:22:42" true).appended := by
  decide

/-- C5 (amended): serialization is a deterministic function of the
snapshot and the server-generated timestamp; the submitted timestamp is
validated for presence but never used, so two calls with the same
`gameState` and the same server time give identical results even when the
submitted timestamps differ. -/
theorem handleSaveMove_deterministic (gs : GameState)
    (ts1 ts2 serverTime : String) (w : Bool) :
    handleSaveMove (some ⟨some gs, some ts1⟩) serverTime w =
      handleSaveMove (some ⟨some gs, some ts2⟩) serverTime w := rfl

/-- Witness for C5's amended statement at concrete distinct submitted
timestamps. -/
theorem handleSaveMove_deterministic_witness :
    handleSaveMove (some ⟨some ⟨some [], none, none⟩, some "A"⟩) "S" true =
      handleSaveMove (some ⟨some ⟨some [], none, none⟩, some "B"⟩) "S" true :=
  handleSaveMove_deterministic ⟨some [], none, none⟩ "A" "B" "S" true

/-! ## C6 — validation rejects without writing -/

/-- C6: a submission whose body is not valid JSON (`body = none`) or lacks
the `gameState` or `timestamp` field is rejected with HTTP 400 and nothing
is appended to the log file. -/
theorem handleSaveMove_rejects_invalid (body : Option ParsedBody)
    (serverTime : String) (w : Bool)
    (h : body = none ∨ ∃ pb, body = some pb ∧
      (pb.gameState = none ∨ pb.timestamp = none)) :
    (handleSaveMove body serverTime w).status = 400 ∧
    (handleSaveMove body serverTime w).appended = [] := by
  rcases h with rfl | ⟨pb, rfl, hpb⟩
  · exact ⟨rfl, rfl⟩
  · obtain ⟨gso, tso⟩ := pb
    cases gso <;> cases tso <;> simp_all [handleSaveMove]

/-- Witness for C6 at a not-valid-JSON body. -/
theorem handleSaveMove_rejects_invalid_witness :
    (handleSaveMove none "2025-10-26 15:22:41" true).status = 400 ∧
    (handleSaveMove none "2025-10-26 15:22:41" true).appended = [] :=
  handleSaveMove_rejects_invalid none "2025-10-26 15:22:41" true (Or.inl rfl)

/-! ## C7 — optional fields degrade to a placeholder -/

/-- C7: a present die without a pip count, or a present cube without a
value, serializes with the placeholder `"?"` in its line (which is part of
the output), and the request still succeeds with HTTP 200. -/
theorem optional_placeholder (gs : GameState) (ts serverTime : String)
    (d : DicePair) (rd wd : Die) (cb : CubeObj) (cx : ℚ) :
    (gs.dice = some d → d.red = some rd → rd.pips = none →
      dieLine "Red" rd = "  - Red Die: ? pips at (x:" ++
          toString (phpRound rd.x) ++ ", y:" ++ toString (phpRound rd.y) ++
          ")\n" ∧
      dieLine "Red" rd ∈ serializeGameState gs serverTime) ∧
    (gs.dice = some d → d.white = some wd → wd.pips = none →
      dieLine "White" wd = "  - White Die: ? pips at (x:" ++
          toString (phpRound wd.x) ++ ", y:" ++ toString (phpRound wd.y) ++
          ")\n" ∧
      dieLine "White" wd ∈ serializeGameState gs serverTime) ∧
    (gs.cube = some cb → cb.x = some cx → cb.value = none →
      cubeLine cx cb.y cb.value = "  - Cube at (x:" ++ toString (phpRound cx) ++
          ", y:" ++ toString (phpRound cb.y) ++ "), value: ?\n" ∧
      cubeLine cx cb.y cb.value ∈ serializeGameState gs serverTime) ∧
    (handleSaveMove (some ⟨some gs, some ts⟩) serverTime true).status = 200 := by
  refine ⟨?_, ?_, ?_, ?_⟩
  · intro h1 h2 h3
    constructor
    · simp only [dieLine, h3, optStr]
      rfl
    · simp [serializeGameState, diceSection, h1, h2]
  · intro h1 h2 h3
    constructor
    · simp only [dieLine, h3, optStr]
      rfl
    · simp [serializeGameState, diceSection, h1, h2]
  · intro h1 h2 h3
    constructor
    · simp only [cubeLine, h3, optStr, String.append_assoc]
      rfl
    · simp [serializeGameState, cubeSection, h1, h2]
  · simp [handleSaveMove, serializeGameState, List.isEmpty_iff]

/-- Witness for C7 at a red die without pips. -/
theorem optional_placeholder_witness :
    dieLine "Red" ⟨150, 200, none⟩ = "  - Red Die: ? pips at (x:" ++
        toString (phpRound 150) ++ ", y:" ++ toString (phpRound 200) ++
        ")\n" ∧
    (handleSaveMove (some ⟨some ⟨none, some ⟨some ⟨150, 200, none⟩, none⟩, none⟩,
        some "T"⟩) "S" true).status = 200 := by
  have h := optional_placeholder ⟨none, some ⟨some ⟨150, 200, none⟩, none⟩, none⟩
    "T" "S" ⟨some ⟨150, 200, none⟩, none⟩ ⟨150, 200, none⟩ ⟨150, 200, none⟩
    ⟨none, 0, none⟩ 0
  exact ⟨(h.1 rfl rfl rfl).1, h.2.2.2⟩

/-! ## C9 — the output is never empty -/

/-- C9: the serialized output always ends with the blank entry and is
never empty, so a successful request always reports `logged ≥ 1`; and when
the `gameState` has no checkers key at all, no checkers section is emitted
yet the blank entry is still written. -/
theorem serialize_always_appends (gs : GameState) (ts serverTime : String) :
    serializeGameState gs serverTime ≠ [] ∧
    (serializeGameState gs serverTime).getLast? = some "\n" ∧
    (handleSaveMove (some ⟨some gs, some ts⟩) serverTime true).status = 200 ∧
    (∃ n, (handleSaveMove (some ⟨some gs, some ts⟩) serverTime true).logged =
        some n ∧ 1 ≤ n) ∧
    (gs.checkers = none →
      serializeGameState gs serverTime =
        diceSection serverTime gs ++ cubeSection serverTime gs ++ ["\n"]) := by
  refine ⟨by simp [serializeGameState], ?_, ?_, ?_, ?_⟩
  · simp [serializeGameState, List.append_assoc, List.getLast?_concat]
  · simp [handleSaveMove, serializeGameState, List.isEmpty_iff]
  · refine ⟨(serializeGameState gs serverTime).length, ?_, ?_⟩
    · simp [handleSaveMove, serializeGameState, List.isEmpty_iff]
    · simp [serializeGameState]
      omega
  · intro h
    simp [serializeGameState, checkersSection, h]

/-- Witness for C9 at a gameState with no checkers key. -/
theorem serialize_always_appends_witness :
    serializeGameState ⟨none, none, none⟩ "S" =
      diceSection "S" ⟨none, none, none⟩ ++
        cubeSection "S" ⟨none, none, none⟩ ++ ["\n"] :=
  (serialize_always_appends ⟨none, none, none⟩ "T" "S").2.2.2.2 rfl

/-! ## C10 — dice color assignment by detection order -/

/-- C10: `detectDice` assigns dice to colors purely by detection order —
`red` is the first element of the detection list and `white` the second;
whenever exactly one die is detected, it is reported as the red die and
the white die is `null`. -/
theorem detectDice_order (width height : ℚ) (circles : List Circle)
    (rands : List ℚ) :
    (detectDice width height circles rands).1 =
      (collectDice width height circles rands).get? 0 ∧
    (detectDice width height circles rands).2 =
      (collectDice width height circles rands).get? 1 ∧
    ((collectDice width height circles rands).length = 1 →
      (detectDice width height circles rands).1 =
        (collectDice width height circles rands).head? ∧
      (detectDice width height circles rands).1.isSome = true ∧
      (detectDice width height circles rands).2 = none) := by
  refine ⟨rfl, rfl, ?_⟩
  intro hlen
  cases hcol : collectDice width height circles rands with
  | nil => rw [hcol] at hlen; simp at hlen
  | cons a t =>
    cases t with
    | nil => simp [detectDice, hcol]
    | cons b t2 =>
      rw [hcol] at hlen
      simp [List.length_cons] at hlen

/-- Witness for C10: a frame with exactly one circle passing the dice
filter (the second circle fails `x < width`). -/
theorem detectDice_order_witness :
    (detectDice 100 100 [⟨50, 50, 10⟩, ⟨200, 50, 10⟩] [1/2]).2 = none := by
  have h : (collectDice 100 100 [⟨50, 50, 10⟩, ⟨200, 50, 10⟩] [1/2]).length = 1 := by
    decide
  exact ((detectDice_order 100 100 [⟨50, 50, 10⟩, ⟨200, 50, 10⟩] [1/2]).2.2 h).2.2

/-! ## C8 — placeholder cube value and dice pips -/

/-- C8: `detectCubeValue` is the constant `1`, and `detectDicePips` maps
any position and any random draw `rand ∈ [0, 1)` to an integer in
`1..6`. -/
theorem placeholder_values (x y cx cy dr rand : ℚ)
    (h0 : 0 ≤ rand) (h1 : rand < 1) :
    detectCubeValue x y = 1 ∧
    1 ≤ detectDicePips cx cy dr rand ∧ detectDicePips cx cy dr rand ≤ 6 := by
  refine ⟨rfl, ?_, ?_⟩
  · have h : (0:ℤ) ≤ ⌊rand * 6⌋ := Int.floor_nonneg.mpr (by nlinarith)
    simp only [detectDicePips]
    omega
  · have h : ⌊rand * 6⌋ < 6 := Int.floor_lt.mpr (by push_cast; nlinarith)
    simp only [detectDicePips]
    omega

/-- Witness for C8 at `rand = 1/2`. -/
theorem placeholder_values_witness :
    detectCubeValue 3 7 = 1 ∧
    1 ≤ detectDicePips 10 20 5 (1/2) ∧ detectDicePips 10 20 5 (1/2) ≤ 6 :=
  placeholder_values 3 7 10 20 5 (1/2) (by norm_num) (by norm_num)

end Backgammon
